import Mathlib

/-!
Verification of the AgentX repository's ServiceNow client, credential store and
chat persistence layers, as a shallow embedding in Lean.

The ServiceNow API client (src/src/services/servicenow.ts) is modelled as a
state-passing program: the mutable instance fields become an explicit record,
the network becomes a queue of pending HTTP responses together with a trace of
issued requests, and `Date.now()` becomes an explicit `now : Nat` argument
(milliseconds).  JavaScript thrown values become an explicit error type.

Two pieces of JavaScript/fetch semantics that the source code relies on are
modelled explicitly, because several claims hinge on them:

* a `throw` inside a `try` block is caught by that block's own `catch` clause
  (relevant to the error-normalization code at servicenow.ts lines 160-180,
  where the structured error built after `response.json()` is thrown inside
  the same `try` whose `catch (jsonError)` then catches it);

* `response.json()` marks a non-null response body as consumed even when the
  JSON parse fails, so a subsequent `response.text()` on the same response
  rejects with a TypeError; a null (absent) body is never marked consumed and
  `text()` on it returns the empty string.

JSON parsing itself is abstracted: an `HttpResponse` carries both its raw body
text and the result of parsing that text (`bodyJson`, `none` when the text is
not valid JSON).  Concrete inputs used in theorems keep these two fields
coherent.
-/

namespace AgentX

/-- A JSON value, used for request/response bodies and parsed error payloads. -/
inductive Json where
  | null : Json
  | bool (b : Bool) : Json
  | num (n : Int) : Json
  | str (s : String) : Json
  | arr (elems : List Json) : Json
  | obj (fields : List (String × Json)) : Json

/-- Field lookup on a JSON object, i.e. JavaScript `value?.field` followed by
use of the result; returns `none` for missing fields and non-objects. -/
def Json.getField : Json → String → Option Json
  | Json.obj fields, key => fields.lookup key
  | _, _ => none

/-- Whether the first list is an initial segment of the second. -/
def listPrefixEq : List Char → List Char → Bool
  | [], _ => true
  | _ :: _, [] => false
  | a :: as, b :: bs => a == b && listPrefixEq as bs

/-- JavaScript `s.startsWith(pattern)`. -/
def jsStartsWith (s pattern : String) : Bool :=
  listPrefixEq pattern.data s.data

/-- JavaScript `s.endsWith(pattern)`. -/
def jsEndsWith (s pattern : String) : Bool :=
  listPrefixEq pattern.data.reverse s.data.reverse

/-- Whether `pattern` occurs as a contiguous subsequence of `s`. -/
def listContainsSeq (pattern : List Char) : List Char → Bool
  | [] => pattern.isEmpty
  | c :: rest => listPrefixEq pattern (c :: rest) || listContainsSeq pattern rest

/-- JavaScript `s.includes(pattern)`. -/
def jsIncludes (s pattern : String) : Bool :=
  listContainsSeq pattern.data s.data

/-- UTF-8 encoding of a single character, as a list of byte values. -/
def utf8Bytes (c : Char) : List Nat :=
  let n := c.toNat
  if n < 128 then [n]
  else if n < 2048 then [192 + n / 64, 128 + n % 64]
  else if n < 65536 then [224 + n / 4096, 128 + (n / 64) % 64, 128 + n % 64]
  else [240 + n / 262144, 128 + (n / 4096) % 64, 128 + (n / 64) % 64, 128 + n % 64]

/-- The bytes of a string under UTF-8. -/
def strBytes (s : String) : List Nat :=
  (s.data.map utf8Bytes).flatten

/-- The standard base64 alphabet. -/
def base64Char (n : Nat) : Char :=
  "ABCDEFGHIJKLMNOPQRSTUVWXYZabcdefghijklmnopqrstuvwxyz0123456789+/".data.getD n '='

/-- Base64-encode a byte list, three bytes to four output characters, with
trailing `=` padding. -/
def b64EncodeList : List Nat → List Char
  | [] => []
  | [a] =>
      [base64Char (a / 4), base64Char ((a % 4) * 16), '=', '=']
  | [a, b] =>
      [base64Char (a / 4), base64Char ((a % 4) * 16 + b / 16),
       base64Char ((b % 16) * 4), '=']
  | a :: b :: c :: rest =>
      base64Char (a / 4) :: base64Char ((a % 4) * 16 + b / 16) ::
      base64Char ((b % 16) * 4 + c / 64) :: base64Char (c % 64) ::
      b64EncodeList rest

/-- The browser `btoa` builtin used at servicenow.ts line 87 (the credentials
in scope are ASCII, where the latin-1 view `btoa` takes coincides with UTF-8). -/
def btoa (s : String) : String :=
  String.mk (b64EncodeList (strBytes s))

/-- An outbound HTTP request as recorded in the trace.  `signal` records the
abort-timeout in milliseconds when an abort signal is attached to the request,
and is `none` when the request carries no signal. -/
structure HttpRequest where
  method : String
  url : String
  body : Option Json
  authHeader : Option String
  signal : Option Nat

/-- An HTTP response delivered by the network.  `body` is `none` for a null
(absent) body; `bodyJson` is the JSON parse of the body text (`none` when the
body is absent or not valid JSON). -/
structure HttpResponse where
  status : Nat
  statusText : String
  body : Option String
  bodyJson : Option Json

/-- The fetch `Response.ok` flag: status in the range 200-299. -/
def HttpResponse.isOk (r : HttpResponse) : Bool :=
  decide (200 ≤ r.status ∧ r.status < 300)

/-- A JavaScript thrown value, separated by provenance: `jsError` is a value
built with `new Error(message)`; `httpError` is a thrown plain object carrying
a `status` field (the error-normalization shapes `\x7bstatus, message, detail\x7d`
and `\x7bstatus, message\x7d`); `typeError` and `syntaxError` are the builtin
exception classes; `networkError` is a fetch rejection. -/
inductive JsError where
  | jsError (message : String) : JsError
  | httpError (status : Nat) (message : String) (detail : Option String) : JsError
  | typeError (message : String) : JsError
  | syntaxError (message : String) : JsError
  | networkError (message : String) : JsError
deriving DecidableEq

/-- The `status` field of a thrown value, as read by `error.status === 401`:
only the thrown plain objects carry one. -/
def JsError.statusOf : JsError → Option Nat
  | JsError.httpError s _ _ => some s
  | _ => none

/-- The `message` field of a thrown value, as read by `error.message`. -/
def JsError.messageText : JsError → String
  | JsError.jsError m => m
  | JsError.httpError _ m _ => m
  | JsError.typeError m => m
  | JsError.syntaxError m => m
  | JsError.networkError m => m

/-- The network: a queue of responses the server will return to successive
fetches, and the trace of requests issued so far. -/
structure Wire where
  pending : List HttpResponse
  sent : List HttpRequest

/-- One `fetch` call: the request is recorded in the trace; the next pending
response is delivered, or the promise rejects when the network yields nothing. -/
def doFetch (req : HttpRequest) (w : Wire) : Except JsError HttpResponse × Wire :=
  match w.pending with
  | [] => (Except.error (JsError.networkError "Failed to fetch"),
           { pending := [], sent := w.sent ++ [req] })
  | r :: rest => (Except.ok r, { pending := rest, sent := w.sent ++ [req] })

/-- JavaScript truthiness of `string | null`: `null` and the empty string are
falsy. -/
def jsTruthy : Option String → Bool
  | none => false
  | some s => decide (s ≠ "")

/-- The `await response.json()` step on the success path (servicenow.ts line
182): an absent body or unparseable text raises a SyntaxError. -/
def responseJson (r : HttpResponse) : Except JsError Json :=
  match r.body with
  | none => Except.error (JsError.syntaxError "Unexpected end of JSON input")
  | some _ =>
    match r.bodyJson with
    | some j => Except.ok j
    | none => Except.error (JsError.syntaxError "Unexpected token in JSON")

/-- The non-2xx handling block, servicenow.ts lines 160-179.  The inner `try`
parses the body, builds the structured error and throws it; that throw is
caught by the block's own `catch (jsonError)`, which then calls
`response.text()`.  When the response has a (non-null) body, `json()` has
already consumed it — whether or not parsing succeeded — so `text()` rejects
with a TypeError, and that TypeError is what escapes the block.  Only when the
response body is null does `text()` succeed (returning `""`), letting the
fallback object `\x7bstatus, message: textError or statusText or default\x7d`
escape. -/
def nonOkError (r : HttpResponse) : JsError :=
  let defaultMessage := "Request failed with status " ++ toString r.status
  match r.body with
  | none =>
      JsError.httpError r.status
        (if r.statusText = "" then defaultMessage else r.statusText) none
  | some _ => JsError.typeError "Body has already been consumed."

/-- The ServiceNowAPI instance fields (servicenow.ts lines 43-48). -/
structure SNState where
  baseUrl : String
  username : String
  password : String
  accessToken : Option String
  tokenExpiry : Nat
  credentialId : String
deriving DecidableEq

/-- A ServiceNow credential row (ServiceNowCredential in src/src/lib/mockAuth.ts). -/
structure CredRow where
  id : String
  user_id : String
  name : String
  instance_url : String
  username : String
  password : String
  created_at : Nat
deriving DecidableEq

/-- The ServiceNowAPI constructor (servicenow.ts lines 50-57): normalizes the
instance URL to end with a slash and copies the credential fields. -/
def mkServiceNowAPI (credential : CredRow) : SNState :=
  { baseUrl :=
      if jsEndsWith credential.instance_url "/" then credential.instance_url
      else credential.instance_url ++ "/"
    username := credential.username
    password := credential.password
    accessToken := none
    tokenExpiry := 0
    credentialId := credential.id }

/-- ServiceNowAPI.authenticate (servicenow.ts lines 63-129).  Reuses a cached
truthy token while `now < tokenExpiry`; otherwise validates the credentials,
stores the base64 token and an expiry one hour out, and then issues the
verification request.  Every thrown value inside the `try` is wrapped by the
`catch` into `new Error("Failed to authenticate with ServiceNow: " + message)`.
Note that the token and expiry are assigned before the verification request
and are not cleared when it fails. -/
def authenticate (st : SNState) (now : Nat) (w : Wire) :
    Except JsError Unit × SNState × Wire :=
  if jsTruthy st.accessToken = true ∧ now < st.tokenExpiry then
    (Except.ok (), st, w)
  else if st.username = "" ∨ st.password = "" then
    (Except.error (JsError.jsError
      ("Failed to authenticate with ServiceNow: " ++
       "ServiceNow username or password is empty. Please check your credentials.")),
     st, w)
  else
    let encodedCredentials := btoa (st.username ++ ":" ++ st.password)
    let st1 : SNState :=
      { st with accessToken := some encodedCredentials, tokenExpiry := now + 3600000 }
    let testUrl := st1.baseUrl ++ "api/now/v2/table/sys_user?sysparm_limit=1"
    let req : HttpRequest :=
      { method := "GET", url := testUrl, body := none,
        authHeader := some ("Basic " ++ encodedCredentials), signal := none }
    match doFetch req w with
    | (Except.error e, w1) =>
        (Except.error (JsError.jsError
          ("Failed to authenticate with ServiceNow: " ++ e.messageText)), st1, w1)
    | (Except.ok resp, w1) =>
        if resp.isOk then (Except.ok (), st1, w1)
        else
          (Except.error (JsError.jsError
            ("Failed to authenticate with ServiceNow: Basic auth test failed: " ++
             toString resp.status ++ " " ++ resp.body.getD "")), st1, w1)

/-- The caller-supplied part of the fetch options built inside `request`
(servicenow.ts lines 134-158): the method defaults to GET and the body, when
present, is the JSON value the caller serialized. -/
structure ReqOptions where
  method : Option String
  body : Option Json

/-- The request URL (servicenow.ts lines 140-142). -/
def requestUrl (st : SNState) (endpoint : String) : String :=
  if jsStartsWith endpoint "http" then endpoint
  else st.baseUrl ++ "api/now/v2/" ++ endpoint

/-- The request dispatched by `request` (servicenow.ts lines 140-158): the
caller's options merged with the JSON headers and the Basic authorization
header; the source passes no abort signal to this fetch. -/
def snRequest (st : SNState) (endpoint : String) (opts : ReqOptions) : HttpRequest :=
  { method := opts.method.getD "GET", url := requestUrl st endpoint,
    body := opts.body,
    authHeader := some ("Basic " ++ st.accessToken.getD ""),
    signal := none }

/-- ServiceNowAPI.request (servicenow.ts lines 134-193), with explicit fuel.
After `authenticate`, the request is dispatched; a non-ok response is turned
into an error by `nonOkError`; the outer `catch` retries (after clearing the
token) exactly when the caught value carries `status === 401`, by calling
`request` again.  Each recursive call is only reached after the current round
consumed one pending response, so `pending.length + 1` fuel always suffices
and the fuel-exhaustion branch is unreachable from `request`. -/
def requestGo (fuel : Nat) (st : SNState) (now : Nat) (endpoint : String)
    (opts : ReqOptions) (w : Wire) : Except JsError Json × SNState × Wire :=
  match fuel with
  | 0 => (Except.error (JsError.networkError "Failed to fetch"), st, w)
  | Nat.succ fuel =>
    match authenticate st now w with
    | (Except.error e, st1, w1) => (Except.error e, st1, w1)
    | (Except.ok _, st1, w1) =>
      match doFetch (snRequest st1 endpoint opts) w1 with
      | (Except.error e, w2) =>
          if e.statusOf = some 401 then
            requestGo fuel { st1 with accessToken := none, tokenExpiry := 0 }
              now endpoint opts w2
          else (Except.error e, st1, w2)
      | (Except.ok resp, w2) =>
          if resp.isOk then
            match responseJson resp with
            | Except.ok j => (Except.ok j, st1, w2)
            | Except.error e => (Except.error e, st1, w2)
          else
            let e := nonOkError resp
            if e.statusOf = some 401 then
              requestGo fuel { st1 with accessToken := none, tokenExpiry := 0 }
                now endpoint opts w2
            else (Except.error e, st1, w2)

/-- ServiceNowAPI.request entry point: the fuel bound is one more than the
number of responses the network can still deliver. -/
def request (st : SNState) (now : Nat) (endpoint : String) (opts : ReqOptions)
    (w : Wire) : Except JsError Json × SNState × Wire :=
  requestGo (w.pending.length + 1) st now endpoint opts w

/-- One hex digit, upper case. -/
def hexDigit (n : Nat) : Char :=
  "0123456789ABCDEF".data.getD n '0'

/-- A character kept verbatim by URLSearchParams serialization
(application/x-www-form-urlencoded). -/
def isFormSafe (c : Char) : Bool :=
  c.isAlphanum || c = '*' || c = '-' || c = '.' || c = '_'

/-- Encoding of one byte under application/x-www-form-urlencoded: a space
becomes `+`, safe characters are kept, every other byte is percent-encoded. -/
def formEncodeByte (b : Nat) : List Char :=
  let c := Char.ofNat b
  if c = ' ' then ['+']
  else if isFormSafe c then [c]
  else ['%', hexDigit (b / 16), hexDigit (b % 16)]

/-- application/x-www-form-urlencoded encoding of one string, as produced by
`URLSearchParams.toString()`. -/
def formEncode (s : String) : String :=
  String.mk ((strBytes s).map formEncodeByte).flatten

/-- `URLSearchParams.toString()` over an append-ordered key/value list. -/
def searchParamsToString (params : List (String × String)) : String :=
  String.intercalate "&" (params.map (fun p => formEncode p.1 ++ "=" ++ formEncode p.2))

/-- The shared shape of every public operation's try/catch around `request`:
on success the response value is post-processed, on failure the caught error
is wrapped; the client state and the wire pass through unchanged. -/
def mapResult (f : Json → A) (wrap : JsError → JsError)
    (t : Except JsError Json × SNState × Wire) : Except JsError A × SNState × Wire :=
  match t with
  | (Except.ok j, st, w) => (Except.ok (f j), st, w)
  | (Except.error e, st, w) => (Except.error (wrap e), st, w)

/-- Wrapping of a caught error by a public operation: `new Error(opPrefix +
(error.message or "Unknown error"))` (e.g. servicenow.ts lines 242-244). -/
def wrapOpError (opMessage : String) (e : JsError) : JsError :=
  JsError.jsError
    (opMessage ++ (if e.messageText = "" then "Unknown error" else e.messageText))

/-- ServiceNowQueryOptions (servicenow.ts lines 26-34); all fields optional,
defaults applied by `queryRecords` itself. -/
structure SNQueryOptions where
  table : String
  query : Option String
  limit : Option Nat
  offset : Option Nat
  fields : Option (List String)
  orderBy : Option String
  orderDirection : Option String

/-- ServiceNowAPI.queryRecords (servicenow.ts lines 198-246): builds the
parameterized table endpoint and returns the `result` field of the response. -/
def queryRecords (st : SNState) (now : Nat) (options : SNQueryOptions) (w : Wire) :
    Except JsError (Option Json) × SNState × Wire :=
  let limit := options.limit.getD 10
  let offset := options.offset.getD 0
  let fields := options.fields.getD []
  let orderDirection := options.orderDirection.getD "desc"
  let params :=
    (match options.query with
     | some q => [("sysparm_query", q)]
     | none => []) ++
    [("sysparm_limit", toString limit), ("sysparm_offset", toString offset)] ++
    (if fields.length > 0 then [("sysparm_fields", String.intercalate "," fields)]
     else []) ++
    (match options.orderBy with
     | some ob => [("sysparm_order_by", ob), ("sysparm_order", orderDirection)]
     | none => [])
  let queryString := searchParamsToString params
  let endpoint :=
    "table/" ++ options.table ++ (if queryString = "" then "" else "?" ++ queryString)
  mapResult (fun j => j.getField "result")
    (wrapOpError ("Failed to query " ++ options.table ++ " records: "))
    (request st now endpoint { method := none, body := none } w)

/-- ServiceNowAPI.getRecord (servicenow.ts lines 251-275). -/
def getRecord (st : SNState) (now : Nat) (table sysId : String)
    (fields : List String) (w : Wire) : Except JsError (Option Json) × SNState × Wire :=
  let endpoint := "table/" ++ table ++ "/" ++ sysId
  let endpoint :=
    if fields.length > 0 then
      endpoint ++ "?" ++
        searchParamsToString [("sysparm_fields", String.intercalate "," fields)]
    else endpoint
  mapResult (fun j => j.getField "result")
    (wrapOpError ("Failed to get " ++ table ++ " record: "))
    (request st now endpoint { method := none, body := none } w)

/-- ServiceNowAPI.createRecord (servicenow.ts lines 280-301). -/
def createRecord (st : SNState) (now : Nat) (table : String) (data : Json)
    (w : Wire) : Except JsError (Option Json) × SNState × Wire :=
  mapResult (fun j => j.getField "result")
    (wrapOpError ("Failed to create " ++ table ++ " record: "))
    (request st now ("table/" ++ table) { method := some "POST", body := some data } w)

/-- ServiceNowAPI.updateRecord (servicenow.ts lines 306-328). -/
def updateRecord (st : SNState) (now : Nat) (table sysId : String) (data : Json)
    (w : Wire) : Except JsError (Option Json) × SNState × Wire :=
  mapResult (fun j => j.getField "result")
    (wrapOpError ("Failed to update " ++ table ++ " record: "))
    (request st now ("table/" ++ table ++ "/" ++ sysId)
      { method := some "PATCH", body := some data } w)

/-- ServiceNowAPI.deleteRecord (servicenow.ts lines 333-346). -/
def deleteRecord (st : SNState) (now : Nat) (table sysId : String) (w : Wire) :
    Except JsError Unit × SNState × Wire :=
  mapResult (fun _ => ())
    (wrapOpError ("Failed to delete " ++ table ++ " record: "))
    (request st now ("table/" ++ table ++ "/" ++ sysId)
      { method := some "DELETE", body := none } w)

/-- ServiceNowAPI.executeScript (servicenow.ts lines 351-368): POSTs
`\x7bscript: sourceText\x7d` to the endpoint string "v1/script/execute" — which
`request` then prefixes with `baseUrl + "api/now/v2/"` — and returns the
`result` field of the response JSON. -/
def executeScript (st : SNState) (now : Nat) (script : String) (w : Wire) :
    Except JsError (Option Json) × SNState × Wire :=
  mapResult (fun j => j.getField "result")
    (wrapOpError "Failed to execute script: ")
    (request st now "v1/script/execute"
      { method := some "POST", body := some (Json.obj [("script", Json.str script)]) } w)

/-- ServiceNowAPI.testConnection (servicenow.ts lines 373-383): authenticates,
issues one cheap list request, and folds every failure into `false`. -/
def testConnection (st : SNState) (now : Nat) (w : Wire) : Bool × SNState × Wire :=
  match authenticate st now w with
  | (Except.error _, st1, w1) => (false, st1, w1)
  | (Except.ok _, st1, w1) =>
    match request st1 now "table/sys_user?sysparm_limit=1"
        { method := none, body := none } w1 with
    | (Except.ok _, st2, w2) => (true, st2, w2)
    | (Except.error _, st2, w2) => (false, st2, w2)

/-- The caller-visible fetch options forwarded by the supabase global fetch
wrapper. -/
structure FetchOptions where
  method : Option String
  body : Option Json
  signal : Option Nat

/-- The supabase client's global fetch wrapper (src/src/config/supabase.ts
lines 36-56): creates an AbortController, schedules `controller.abort()` after
15000 milliseconds, and issues the request with that controller's signal
attached, so every request dispatched through the supabase client carries a
15-second abort signal. -/
def supabaseGlobalFetch (url : String) (options : FetchOptions) : HttpRequest :=
  { method := options.method.getD "GET", url := url, body := options.body,
    authHeader := none, signal := some 15000 }

/-- The sender role of a chat message (src/src/services/chat.ts lines 9-19). -/
inductive Sender where
  | user : Sender
  | ai : Sender
deriving DecidableEq

/-- A code snippet attached to a chat message (chat.ts lines 14-18). -/
structure CodeSnippet where
  id : String
  code : String
  language : String
deriving DecidableEq

/-- ChatMessage (chat.ts lines 9-19).  The `Date` timestamp is modelled as
milliseconds since the epoch: `Date.toISOString()` is an injective fixed-width
encoding whose lexicographic order agrees with the numeric order, and
`new Date(iso)` recovers the exact millisecond value, so storing and ordering
by the number is observationally the same as storing and ordering by the ISO
string. -/
structure ChatMessage where
  id : String
  content : String
  sender : Sender
  timestamp : Nat
  codeSnippets : Option (List CodeSnippet)
deriving DecidableEq

/-- ChatConversation (chat.ts lines 21-27); `messages` is absent on list
results. -/
structure ChatConversation where
  id : String
  title : String
  createdAt : Nat
  updatedAt : Nat
  messages : Option (List ChatMessage)
deriving DecidableEq

/-- A row of the `conversations` table. -/
structure ConversationRow where
  id : String
  user_id : String
  title : String
  created_at : Nat
  updated_at : Nat
deriving DecidableEq

/-- A row of the `messages` table.  `metadata` holds the `codeSnippets` list
wrapped as `\x7bcodeSnippets: [...]\x7d`, or SQL NULL. -/
structure MessageRow where
  id : String
  conversation_id : String
  content : String
  sender : Sender
  created_at : Nat
  metadata : Option (List CodeSnippet)
deriving DecidableEq

/-- A structured error returned by a supabase call (`\x7bmessage, code\x7d`). -/
structure DbErr where
  message : String
  code : String
deriving DecidableEq

/-- The backend world seen through the supabase client: the three tables this
code touches, a schedule of injected faults (each supabase call consumes one
slot; a `some` slot makes that call return its error), the authenticated user
id reported by `auth.getUser()`, and a counter from which the database derives
fresh row ids (modelling server-side id generation: inserted rows get an id
chosen by the database, independent of any caller-supplied value). -/
structure SupaWorld where
  conversations : List ConversationRow
  messages : List MessageRow
  credentials : List CredRow
  faults : List (Option DbErr)
  authUid : Option String
  nextId : Nat
deriving DecidableEq

/-- Consume one fault slot; an exhausted schedule means the call succeeds. -/
def popFault (w : SupaWorld) : Option DbErr × SupaWorld :=
  match w.faults with
  | [] => (none, w)
  | f :: rest => (f, { w with faults := rest })

/-- A database-generated row id. -/
def freshId (w : SupaWorld) : String × SupaWorld :=
  ("row-" ++ toString w.nextId, { w with nextId := w.nextId + 1 })

/-- Rows for the bulk message insert of saveConversation (chat.ts lines
60-72): each provided message is stored with a database-generated id — the
insert payload carries no `id` field — the new conversation id, the message
content, sender, ISO timestamp, and the snippets wrapped in `metadata` (SQL
NULL when the message has none). -/
def insertMessageRows (cid : String) : List ChatMessage → SupaWorld →
    SupaWorld × List MessageRow
  | [], w => (w, [])
  | m :: ms, w =>
    let p := freshId w
    let row : MessageRow :=
      { id := p.1, conversation_id := cid, content := m.content,
        sender := m.sender, created_at := m.timestamp, metadata := m.codeSnippets }
    let rest := insertMessageRows cid ms p.2
    (rest.1, row :: rest.2)

/-- saveConversation (chat.ts lines 32-85): inserts the conversation row, then
bulk-inserts the messages; every failure path returns `null` (it never
re-throws), and a failure of the message insert leaves the already-inserted
conversation row in place. -/
def saveConversation (userId title : String) (messages : List ChatMessage)
    (now : Nat) (w : SupaWorld) : Except DbErr (Option String) × SupaWorld :=
  match popFault w with
  | (some _, w1) => (Except.ok none, w1)
  | (none, w1) =>
    let p := freshId w1
    let w2 := p.2
    let conversationId := p.1
    let w3 := { w2 with conversations := w2.conversations ++
      [{ id := conversationId, user_id := userId, title := title,
         created_at := now, updated_at := now }] }
    match popFault w3 with
    | (some _, w4) => (Except.ok none, w4)
    | (none, w4) =>
      let q := insertMessageRows conversationId messages w4
      (Except.ok (some conversationId),
       { q.1 with messages := q.1.messages ++ q.2 })

/-- Stable insertion of a message row into a created_at-ascending list. -/
def insertByCreatedAt (m : MessageRow) : List MessageRow → List MessageRow
  | [] => [m]
  | x :: xs =>
    if x.created_at ≤ m.created_at then x :: insertByCreatedAt m xs
    else m :: x :: xs

/-- `order("created_at", ascending: true)`: a stable sort on the stored rows. -/
def sortByCreatedAt (rows : List MessageRow) : List MessageRow :=
  rows.foldl (fun acc m => insertByCreatedAt m acc) []

/-- Stable insertion of a conversation row into an updated_at-descending list. -/
def insertByUpdatedDesc (c : ConversationRow) :
    List ConversationRow → List ConversationRow
  | [] => [c]
  | x :: xs =>
    if x.updated_at ≥ c.updated_at then x :: insertByUpdatedDesc c xs
    else c :: x :: xs

/-- `order("updated_at", ascending: false)`. -/
def sortByUpdatedDesc (rows : List ConversationRow) : List ConversationRow :=
  rows.foldl (fun acc c => insertByUpdatedDesc c acc) []

/-- getConversations (chat.ts lines 90-115): most-recently-updated first;
returns the empty list on failure. -/
def getConversations (userId : String) (w : SupaWorld) :
    Except DbErr (List ChatConversation) × SupaWorld :=
  match popFault w with
  | (some _, w1) => (Except.ok [], w1)
  | (none, w1) =>
    let rows := sortByUpdatedDesc (w1.conversations.filter (fun c => c.user_id == userId))
    (Except.ok (rows.map (fun c =>
      { id := c.id, title := c.title, createdAt := c.created_at,
        updatedAt := c.updated_at, messages := none })), w1)

/-- getConversationWithMessages (chat.ts lines 120-168): loads the single
conversation row, then its messages ordered by creation time ascending; every
failure path (including `.single()` finding no row) returns `null`.  Read-back
of a message: `id` is the stored row id, `codeSnippets` is
`metadata?.codeSnippets or undefined`. -/
def getConversationWithMessages (conversationId : String) (w : SupaWorld) :
    Except DbErr (Option ChatConversation) × SupaWorld :=
  match popFault w with
  | (some _, w1) => (Except.ok none, w1)
  | (none, w1) =>
    match w1.conversations.filter (fun c => c.id == conversationId) with
    | [conv] =>
      match popFault w1 with
      | (some _, w2) => (Except.ok none, w2)
      | (none, w2) =>
        let rows := sortByCreatedAt
          (w2.messages.filter (fun m => m.conversation_id == conversationId))
        let msgs : List ChatMessage := rows.map (fun r =>
          { id := r.id, content := r.content, sender := r.sender,
            timestamp := r.created_at, codeSnippets := r.metadata })
        (Except.ok (some
          { id := conv.id, title := conv.title, createdAt := conv.created_at,
            updatedAt := conv.updated_at, messages := some msgs }), w2)
    | _ => (Except.ok none, w1)

/-- updateConversationTitle (chat.ts lines 173-196): returns `false` on
failure, never re-throws. -/
def updateConversationTitle (conversationId title : String) (now : Nat)
    (w : SupaWorld) : Except DbErr Bool × SupaWorld :=
  match popFault w with
  | (some _, w1) => (Except.ok false, w1)
  | (none, w1) =>
    (Except.ok true, { w1 with conversations := w1.conversations.map (fun c =>
      if c.id == conversationId then { c with title := title, updated_at := now }
      else c) })

/-- deleteConversation (chat.ts lines 201-232): deletes the messages, then the
conversation; returns `false` on failure, never re-throws. -/
def deleteConversation (conversationId : String) (w : SupaWorld) :
    Except DbErr Bool × SupaWorld :=
  match popFault w with
  | (some _, w1) => (Except.ok false, w1)
  | (none, w1) =>
    let w2 := { w1 with messages :=
      w1.messages.filter (fun m => !(m.conversation_id == conversationId)) }
    match popFault w2 with
    | (some _, w3) => (Except.ok false, w3)
    | (none, w3) =>
      let w4 := { w3 with conversations :=
        w3.conversations.filter (fun c => !(c.id == conversationId)) }
      (Except.ok true, w4)

/-- Substring test, used for the duck-typed check
`error.message.includes("row-level security policy")`. -/
def strContains (s pattern : String) : Bool :=
  jsIncludes s pattern

/-- The partial update payload of updateServiceNowCredential (mockAuth.ts line
452): a subset of the name, instance_url, username and password columns; a
`none` field is absent from the payload (JSON.stringify drops absent keys, so
the PATCH sent to the backend does not mention that column at all). -/
structure CredUpdates where
  name : Option String
  instance_url : Option String
  username : Option String
  password : Option String
deriving DecidableEq

/-- Application of a partial update to a stored row: a column absent from the
payload keeps its stored value; `id`, `user_id` and `created_at` are excluded
from the payload type and never written. -/
def applyCredUpdates (r : CredRow) (u : CredUpdates) : CredRow :=
  { r with
    name := u.name.getD r.name
    instance_url := u.instance_url.getD r.instance_url
    username := u.username.getD r.username
    password := u.password.getD r.password }

/-- updateServiceNowCredential (mockAuth.ts lines 449-467): scoped by both row
id and owner id; throws the supabase error on failure (including the
`.single()` error when no row matches); returns the updated row. -/
def updateServiceNowCredential (id userId : String) (updates : CredUpdates)
    (w : SupaWorld) : Except DbErr CredRow × SupaWorld :=
  match popFault w with
  | (some e, w1) => (Except.error e, w1)
  | (none, w1) =>
    match w1.credentials.filter (fun c => c.id == id && c.user_id == userId) with
    | [r] =>
      let w2 := { w1 with credentials := w1.credentials.map (fun c =>
        if c.id == id && c.user_id == userId then applyCredUpdates c updates
        else c) }
      (Except.ok (applyCredUpdates r updates), w2)
    | _ =>
      (Except.error
        { message := "JSON object requested, multiple (or no) rows returned",
          code := "PGRST116" }, w1)

/-- deleteServiceNowCredential (mockAuth.ts lines 434-447): scoped mutation;
throws the supabase error on failure. -/
def deleteServiceNowCredential (id userId : String) (w : SupaWorld) :
    Except DbErr Unit × SupaWorld :=
  match popFault w with
  | (some e, w1) => (Except.error e, w1)
  | (none, w1) =>
    let w2 := { w1 with credentials :=
      w1.credentials.filter (fun c => !(c.id == id && c.user_id == userId)) }
    (Except.ok (), w2)

/-- getServiceNowCredentials (mockAuth.ts lines 419-432): a read path that
nevertheless throws the supabase error on failure. -/
def getServiceNowCredentials (userId : String) (w : SupaWorld) :
    Except DbErr (List CredRow) × SupaWorld :=
  match popFault w with
  | (some e, w1) => (Except.error e, w1)
  | (none, w1) =>
    (Except.ok (w1.credentials.filter (fun c => c.user_id == userId)), w1)

/-- createServiceNowCredentialsTable (mockAuth.ts lines 330-417): issues the
RPC; an RPC failure is only logged (with an SQL suggestion); returns true. -/
def createServiceNowCredentialsTable (w : SupaWorld) :
    Except DbErr Bool × SupaWorld :=
  (Except.ok true, (popFault w).2)

/-- The direct-insert fallback of saveServiceNowCredential (mockAuth.ts lines
278-319): on an insert error whose message mentions the row-level security
policy, the authenticated user id is compared with the supplied owner id and a
descriptive mismatch error is thrown when they differ; every other failure
re-throws the supabase error itself. -/
def directInsertCred (userId name instanceUrl username password : String)
    (now : Nat) (w : SupaWorld) : Except DbErr CredRow × SupaWorld :=
  match popFault w with
  | (some e, w1) =>
    if strContains e.message "row-level security policy" then
      match w1.authUid with
      | some uid =>
        if uid != userId then
          (Except.error
            { message := "User ID mismatch: The provided user ID does not match the authenticated user ID",
              code := "" }, w1)
        else (Except.error e, w1)
      | none => (Except.error e, w1)
    else (Except.error e, w1)
  | (none, w1) =>
    let p := freshId w1
    let row : CredRow :=
      { id := p.1, user_id := userId, name := name, instance_url := instanceUrl,
        username := username, password := password, created_at := now }
    (Except.ok row, { p.2 with credentials := p.2.credentials ++ [row] })

/-- The RPC-first insert path of saveServiceNowCredential (mockAuth.ts lines
240-326): try the `insert_servicenow_credential` RPC; on RPC failure fall back
to the direct insert; on RPC success fetch the inserted row, and fall back to
the direct insert if that fetch fails. -/
def saveCredentialViaRpc (userId name instanceUrl username password : String)
    (now : Nat) (w : SupaWorld) : Except DbErr CredRow × SupaWorld :=
  match popFault w with
  | (some _, w1) => directInsertCred userId name instanceUrl username password now w1
  | (none, w1) =>
    let p := freshId w1
    let row : CredRow :=
      { id := p.1, user_id := userId, name := name, instance_url := instanceUrl,
        username := username, password := password, created_at := now }
    let w2 := { p.2 with credentials := p.2.credentials ++ [row] }
    match popFault w2 with
    | (some _, w3) => directInsertCred userId name instanceUrl username password now w3
    | (none, w3) =>
      match w3.credentials.filter (fun c => c.id == row.id) with
      | [r] => (Except.ok r, w3)
      | _ => directInsertCred userId name instanceUrl username password now w3

/-- saveServiceNowCredential (mockAuth.ts lines 205-327): checks that the
credentials table exists (creating it on the `PGRST116` missing-table code,
re-throwing any other check error), then inserts via the RPC-first path; the
outer catch re-throws whatever error reached it, so every failure of this
write surfaces as a thrown error. -/
def saveServiceNowCredential (userId name instanceUrl username password : String)
    (now : Nat) (w : SupaWorld) : Except DbErr CredRow × SupaWorld :=
  match popFault w with
  | (some e, w1) =>
    if e.code == "PGRST116" then
      let t := createServiceNowCredentialsTable w1
      saveCredentialViaRpc userId name instanceUrl username password now t.2
    else (Except.error e, w1)
  | (none, w1) => saveCredentialViaRpc userId name instanceUrl username password now w1

/-- The update payload built by handleUpdateCredential in the ServiceNow
settings component (src/unnamed/part_010 lines 61-83): name, instance URL and
username are always sent; the password is included only when the entered
password is truthy, so an empty password field means "keep the stored
password". -/
def handleUpdateCredentialUpdates (name instanceUrl username password : String) :
    CredUpdates :=
  { name := some name
    instance_url := some instanceUrl
    username := some username
    password := if password = "" then none else some password }

/-- A concrete stored ServiceNow credential used by the concrete scenarios. -/
def credEx : CredRow :=
  { id := "cred-1", user_id := "user-1", name := "dev instance",
    instance_url := "https://dev.service-now.com", username := "admin",
    password := "secret", created_at := 0 }

/-- A successful verification response (the sys_user probe). -/
def authOkResp : HttpResponse :=
  { status := 200, statusText := "OK",
    body := some "\x7b\"result\":[]\x7d",
    bodyJson := some (Json.obj [("result", Json.arr [])]) }

/-- A 401 response carrying the usual ServiceNow JSON error body. -/
def resp401Json : HttpResponse :=
  { status := 401, statusText := "Unauthorized",
    body := some "\x7b\"error\":\x7b\"message\":\"User Not Authenticated\",\"detail\":\"Required to provide Auth information\"\x7d,\"status\":\"failure\"\x7d",
    bodyJson := some (Json.obj
      [("error", Json.obj
        [("message", Json.str "User Not Authenticated"),
         ("detail", Json.str "Required to provide Auth information")]),
       ("status", Json.str "failure")]) }

/-- A 500 response carrying a JSON error body. -/
def resp500Json : HttpResponse :=
  { status := 500, statusText := "Internal Server Error",
    body := some "\x7b\"error\":\x7b\"message\":\"Internal error\",\"detail\":\"boom\"\x7d\x7d",
    bodyJson := some (Json.obj
      [("error", Json.obj
        [("message", Json.str "Internal error"),
         ("detail", Json.str "boom")])]) }

/-- A 500 response whose body is not valid JSON. -/
def resp500Text : HttpResponse :=
  { status := 500, statusText := "Internal Server Error",
    body := some "Internal Server Error", bodyJson := none }

/-- A client state already holding a valid cached token (as after a successful
authenticate at time 0). -/
def stAuthedEx : SNState :=
  { mkServiceNowAPI credEx with
    accessToken := some (btoa "admin:secret"), tokenExpiry := 3600000 }

/-- Fetch options of a plain GET dispatch. -/
def reqGet : ReqOptions := { method := none, body := none }

/-- A fresh network with the given pending responses and an empty trace. -/
def wireOf (rs : List HttpResponse) : Wire := { pending := rs, sent := [] }

/-- Concrete run for claim C1: fresh client, successful verification, then the
main request is answered 401 with the usual JSON error body. -/
def c1Run : Except JsError Json × SNState × Wire :=
  request (mkServiceNowAPI credEx) 0 "table/incident" reqGet
    (wireOf [authOkResp, resp401Json])

/-- Concrete run for claim C2: fresh client whose verification request is
answered 401. -/
def c2First : Except JsError Unit × SNState × Wire :=
  authenticate (mkServiceNowAPI credEx) 0 (wireOf [resp401Json])

/-- The authenticate call following the failed verification of `c2First`,
sixteen minutes within the recorded expiry window. -/
def c2Second : Except JsError Unit × SNState × Wire :=
  authenticate c2First.2.1 1000000 c2First.2.2

/-- Concrete run for claim C3: authenticated client, response 500 with a JSON
error body. -/
def c3RunJson : Except JsError Json × SNState × Wire :=
  request stAuthedEx 0 "table/incident" reqGet (wireOf [resp500Json])

/-- Concrete run for claim C3: authenticated client, response 500 with a
non-JSON text body. -/
def c3RunText : Except JsError Json × SNState × Wire :=
  request stAuthedEx 0 "table/incident" reqGet (wireOf [resp500Text])

/-- A successful script-execution response. -/
def scriptOkResp : HttpResponse :=
  { status := 200, statusText := "OK",
    body := some "\x7b\"result\":\"ok\"\x7d",
    bodyJson := some (Json.obj [("result", Json.str "ok")]) }

/-- Concrete run for claim C5: executeScript on an authenticated client. -/
def c5Run : Except JsError (Option Json) × SNState × Wire :=
  executeScript stAuthedEx 0 "gs.info(1)" (wireOf [scriptOkResp])

/-- A backend world with empty tables, no injected faults, no authenticated
user, and the id counter at zero. -/
def emptySupaWorld : SupaWorld :=
  { conversations := [], messages := [], credentials := [], faults := [],
    authUid := none, nextId := 0 }

/-- The message list of a getConversationWithMessages result, when present. -/
def convMessages : Except DbErr (Option ChatConversation) → Option (List ChatMessage)
  | Except.ok (some c) => c.messages
  | _ => none

/-- A concrete chat message (claim C6); note its timestamp is later than
`m2x`'s. -/
def m1x : ChatMessage :=
  { id := "a", content := "hi", sender := Sender.user, timestamp := 2000,
    codeSnippets := none }

/-- A concrete chat message (claim C6). -/
def m2x : ChatMessage :=
  { id := "b", content := "yo", sender := Sender.ai, timestamp := 1000,
    codeSnippets := some [{ id := "s1", code := "gs.info(2)", language := "javascript" }] }

/-- Concrete run for claim C6: save the two-message conversation. -/
def c6Save : Except DbErr (Option String) × SupaWorld :=
  saveConversation "user-1" "Title" [m1x, m2x] 5000 emptySupaWorld

/-- Concrete run for claim C6: read the conversation back. -/
def c6Got : Except DbErr (Option ChatConversation) × SupaWorld :=
  getConversationWithMessages "row-0" c6Save.2

/-- A concrete backend error. -/
def dbErrEx : DbErr := { message := "connection reset", code := "08006" }

/-- A concrete backend error whose message does not mention row-level
security. -/
def dbErrIns : DbErr :=
  { message := "permission denied for table servicenow_credentials", code := "42501" }

/-- A world whose next supabase call fails with `dbErrEx`. -/
def wFaulty : SupaWorld := { emptySupaWorld with faults := [some dbErrEx] }

/-- A world in which the table check succeeds but both the RPC insert and the
direct insert fail. -/
def wSaveFails : SupaWorld :=
  { emptySupaWorld with faults := [none, some dbErrEx, some dbErrIns] }

/-- Concrete run for claim C9: the verification request issued by a fresh
authenticate. -/
def c9AuthRun : Except JsError Unit × SNState × Wire :=
  authenticate (mkServiceNowAPI credEx) 0 (wireOf [authOkResp])

/-- The verification request `c9AuthRun` puts on the wire. -/
def authReqEx : HttpRequest :=
  { method := "GET",
    url := "https://dev.service-now.com/api/now/v2/table/sys_user?sysparm_limit=1",
    body := none, authHeader := some ("Basic " ++ btoa "admin:secret"),
    signal := none }

/-- The four ServiceNowAPI fields that no operation may mutate: connection
and credential identity. -/
def corePreserved (st st2 : SNState) : Prop :=
  st2.baseUrl = st.baseUrl ∧ st2.username = st.username
  ∧ st2.password = st.password ∧ st2.credentialId = st.credentialId

/-- Every request the trace gained between two wire states carries no abort
signal. -/
def sentOnlyUnsigned (w w2 : Wire) : Prop :=
  ∀ r ∈ w2.sent, r ∈ w.sent ∨ r.signal = none

/-- C1.  The claim states that a 401 response makes the client clear its
cached token and retry the original request exactly once.  On the code, a 401
response carrying a (JSON) body never triggers the retry at all: the
error-normalization block loses the structured 401 error to its own
`catch (jsonError)` clause, whose `response.text()` call then throws a
TypeError because `response.json()` already consumed the body; the TypeError
carries no `status` field, so the `error.status === 401` retry test fails,
the token is never cleared, and the TypeError is thrown to the caller.  The
run issues exactly two requests (the verification probe and the single
dispatch) instead of re-authenticating and re-sending. -/
theorem c1_401_with_body_is_not_retried :
    c1Run.1 = Except.error (JsError.typeError "Body has already been consumed.")
    ∧ c1Run.2.1.accessToken = some (btoa "admin:secret")
    ∧ c1Run.2.1.tokenExpiry = 3600000
    ∧ c1Run.2.2.sent.length = 2
    ∧ c1Run.2.2.pending = [] :=
  ⟨rfl, rfl, rfl, rfl, rfl⟩

/-- C2.  The claim states that when the verification request of authenticate
fails, the client remains unauthenticated, so the next call must authenticate
(including the verification request) afresh.  On the code, authenticate
assigns the token and a one-hour expiry before issuing the verification
request and does not clear them on failure: the first call below surfaces the
error but retains the cached token, and the second call (within the expiry
window) succeeds from the cache without issuing any verification request. -/
theorem c2_failed_verification_retains_cached_token :
    c2First.1 = Except.error (JsError.jsError
      ("Failed to authenticate with ServiceNow: Basic auth test failed: 401 " ++
       "\x7b\"error\":\x7b\"message\":\"User Not Authenticated\",\"detail\":\"Required to provide Auth information\"\x7d,\"status\":\"failure\"\x7d"))
    ∧ c2First.2.1.accessToken = some (btoa "admin:secret")
    ∧ c2First.2.1.tokenExpiry = 3600000
    ∧ c2Second = (Except.ok (), c2First.2.1, c2First.2.2)
    ∧ c2First.2.2.sent.length = 1 :=
  ⟨rfl, rfl, rfl, rfl, rfl⟩

/-- C3.  The claim states that a non-2xx response is surfaced as the
structured error derived from the response's JSON body, or as the
`\x7bstatus, message: bodyText or statusText\x7d` fallback when the body is
not parseable JSON.  On the code, both the structured error and the fallback
are unreachable whenever the response has a body: the structured error is
thrown inside the `try` whose own `catch (jsonError)` catches it, and the
fallback's `response.text()` throws a TypeError because the body was already
consumed by `response.json()`.  Both a 500 with a JSON body and a 500 with a
plain-text body surface as that TypeError. -/
theorem c3_structured_error_is_lost_to_body_consumption :
    c3RunJson.1 = Except.error (JsError.typeError "Body has already been consumed.")
    ∧ c3RunText.1 = Except.error (JsError.typeError "Body has already been consumed.") :=
  ⟨rfl, rfl⟩

/-- C5, counterexample.  The claim says executeScript posts to
`\x7binstance\x7d/api/now/v1/script/execute`; on the code the endpoint string
"v1/script/execute" is prefixed by `request` with `baseUrl + "api/now/v2/"`,
so the single POST issued by this run goes to
`\x7binstance\x7d/api/now/v2/v1/script/execute`, a different URL. -/
theorem c5_counterexample_execute_script_url :
    c5Run.2.2.sent.map (fun r => r.url)
      = ["https://dev.service-now.com/api/now/v2/v1/script/execute"]
    ∧ "https://dev.service-now.com/api/now/v2/v1/script/execute"
      ≠ "https://dev.service-now.com/api/now/v1/script/execute" :=
  ⟨rfl, by decide⟩

/-- C6, counterexample.  The claim says the round-trip returns a messages
array equal to `[m1, m2]`: same order and same ids.  On the code the saved
rows carry database-generated ids (the insert payload has no `id` field) and
the read-back is ordered by creation time ascending, so for `m1x` (timestamp
2000, id "a") and `m2x` (timestamp 1000, id "b") the returned array has the
two messages swapped and carries the generated ids "row-2" and "row-1": it is
not `[m1x, m2x]`. -/
theorem c6_counterexample_roundtrip_messages :
    c6Save.1 = Except.ok (some "row-0")
    ∧ convMessages c6Got.1 = some
        [{ id := "row-2", content := m2x.content, sender := m2x.sender,
           timestamp := m2x.timestamp, codeSnippets := m2x.codeSnippets },
         { id := "row-1", content := m1x.content, sender := m1x.sender,
           timestamp := m1x.timestamp, codeSnippets := m1x.codeSnippets }]
    ∧ convMessages c6Got.1 ≠ some [m1x, m2x] :=
  ⟨rfl, rfl, by decide⟩

/-- C7, counterexample.  The claim says every write operation of the chat
persistence layer re-throws its underlying error.  On the code, all three
chat write paths catch the backend failure and return their sentinel instead
of throwing: with the next supabase call failing, saveConversation returns
`null`, updateConversationTitle and deleteConversation return `false`. -/
theorem c7_counterexample_chat_writes_return_sentinels :
    (saveConversation "user-1" "Title" [m1x] 0 wFaulty).1 = Except.ok none
    ∧ (updateConversationTitle "row-0" "New" 0 wFaulty).1 = Except.ok false
    ∧ (deleteConversation "row-0" wFaulty).1 = Except.ok false :=
  ⟨rfl, rfl, rfl⟩

/-- C7, as amended.  The credential-store writes re-throw their underlying
error (update and delete for every error value; save shown on a concrete run
where the RPC path and the direct insert both fail), and the chat read paths
return sentinels — but the chat write paths (saveConversation,
updateConversationTitle, deleteConversation) return `null`/`false` sentinels
on failure instead of re-throwing, and the credential read
getServiceNowCredentials re-throws instead of returning a sentinel. -/
theorem c7_error_propagation_asymmetry :
    (∀ (e : DbErr) (fs : List (Option DbErr)) (cs : List ConversationRow)
       (ms : List MessageRow) (rs : List CredRow) (uid : Option String) (n : Nat)
       (cid t : String) (now : Nat),
       (updateConversationTitle cid t now
         ⟨cs, ms, rs, some e :: fs, uid, n⟩).1 = Except.ok false)
    ∧ (∀ (e : DbErr) (fs : List (Option DbErr)) (cs : List ConversationRow)
       (ms : List MessageRow) (rs : List CredRow) (uid : Option String) (n : Nat)
       (cid : String),
       (deleteConversation cid ⟨cs, ms, rs, some e :: fs, uid, n⟩).1 = Except.ok false)
    ∧ (∀ (e : DbErr) (fs : List (Option DbErr)) (cs : List ConversationRow)
       (ms : List MessageRow) (rs : List CredRow) (uid : Option String) (n : Nat)
       (owner t : String) (msgs : List ChatMessage) (now : Nat),
       (saveConversation owner t msgs now
         ⟨cs, ms, rs, some e :: fs, uid, n⟩).1 = Except.ok none)
    ∧ (∀ (e : DbErr) (fs : List (Option DbErr)) (cs : List ConversationRow)
       (ms : List MessageRow) (rs : List CredRow) (uid : Option String) (n : Nat)
       (owner cid : String),
       (getConversations owner ⟨cs, ms, rs, some e :: fs, uid, n⟩).1 = Except.ok []
       ∧ (getConversationWithMessages cid
           ⟨cs, ms, rs, some e :: fs, uid, n⟩).1 = Except.ok none)
    ∧ (∀ (e : DbErr) (fs : List (Option DbErr)) (cs : List ConversationRow)
       (ms : List MessageRow) (rs : List CredRow) (uid : Option String) (n : Nat)
       (id owner : String) (u : CredUpdates),
       (updateServiceNowCredential id owner u
         ⟨cs, ms, rs, some e :: fs, uid, n⟩).1 = Except.error e)
    ∧ (∀ (e : DbErr) (fs : List (Option DbErr)) (cs : List ConversationRow)
       (ms : List MessageRow) (rs : List CredRow) (uid : Option String) (n : Nat)
       (id owner : String),
       (deleteServiceNowCredential id owner
         ⟨cs, ms, rs, some e :: fs, uid, n⟩).1 = Except.error e)
    ∧ (∀ (e : DbErr) (fs : List (Option DbErr)) (cs : List ConversationRow)
       (ms : List MessageRow) (rs : List CredRow) (uid : Option String) (n : Nat)
       (owner : String),
       (getServiceNowCredentials owner
         ⟨cs, ms, rs, some e :: fs, uid, n⟩).1 = Except.error e)
    ∧ (saveServiceNowCredential "user-1" "dev" "https://dev.service-now.com"
        "admin" "secret" 0 wSaveFails).1 = Except.error dbErrIns :=
  ⟨fun _ _ _ _ _ _ _ _ _ _ => rfl,
   fun _ _ _ _ _ _ _ _ => rfl,
   fun _ _ _ _ _ _ _ _ _ _ _ => rfl,
   fun _ _ _ _ _ _ _ _ _ => ⟨rfl, rfl⟩,
   fun _ _ _ _ _ _ _ _ _ _ => rfl,
   fun _ _ _ _ _ _ _ _ _ => rfl,
   fun _ _ _ _ _ _ _ _ => rfl,
   rfl⟩

theorem utf8Bytes_ne_nil (c : Char) : utf8Bytes c ≠ [] := by
  unfold utf8Bytes
  dsimp only
  split
  · simp
  · split
    · simp
    · split <;> simp

theorem strBytes_append (a b : String) :
    strBytes (a ++ b) = strBytes a ++ strBytes b := by
  simp [strBytes, String.data_append]

theorem strBytes_userpass_ne_nil (u p : String) :
    strBytes (u ++ ":" ++ p) ≠ [] := by
  rw [strBytes_append, strBytes_append]
  have h : strBytes ":" = [58] := by decide
  rw [h]
  simp

theorem b64EncodeList_ne_nil (l : List Nat) (h : l ≠ []) :
    b64EncodeList l ≠ [] := by
  match l with
  | [] => exact absurd rfl h
  | [a] => simp [b64EncodeList]
  | [a, b] => simp [b64EncodeList]
  | a :: b :: c :: rest => simp [b64EncodeList]

theorem btoa_userpass_ne_empty (u p : String) : btoa (u ++ ":" ++ p) ≠ "" := by
  intro hcontra
  have hdata := congrArg String.data hcontra
  have : b64EncodeList (strBytes (u ++ ":" ++ p)) = [] := hdata
  exact b64EncodeList_ne_nil _ (strBytes_userpass_ne_nil u p) this

/-- C4.  For any credential with non-empty username and password, the first
authenticate call stores the base64 token with a one-hour expiry and issues
exactly one HTTP request (the verification probe), and a second authenticate
call at any time still within the recorded expiry window returns successfully
from the cache: it changes nothing and issues no request, so the two calls
together perform at most one verification HTTP call. -/
theorem c4_authenticate_twice_single_verification
    (cred : CredRow) (nowA nowB : Nat) (w : Wire)
    (hu : cred.username ≠ "") (hp : cred.password ≠ "")
    (ht : nowB < nowA + 3600000) :
    (authenticate (mkServiceNowAPI cred) nowA w).2.1.accessToken
        = some (btoa (cred.username ++ ":" ++ cred.password))
    ∧ (authenticate (mkServiceNowAPI cred) nowA w).2.1.tokenExpiry = nowA + 3600000
    ∧ (authenticate (mkServiceNowAPI cred) nowA w).2.2.sent.length = w.sent.length + 1
    ∧ authenticate (authenticate (mkServiceNowAPI cred) nowA w).2.1 nowB
        (authenticate (mkServiceNowAPI cred) nowA w).2.2
      = (Except.ok (), (authenticate (mkServiceNowAPI cred) nowA w).2.1,
         (authenticate (mkServiceNowAPI cred) nowA w).2.2) := by
  have hfirst :
      (authenticate (mkServiceNowAPI cred) nowA w).2.1
        = { mkServiceNowAPI cred with
            accessToken := some (btoa (cred.username ++ ":" ++ cred.password)),
            tokenExpiry := nowA + 3600000 }
      ∧ (authenticate (mkServiceNowAPI cred) nowA w).2.2.sent.length
        = w.sent.length + 1 := by
    unfold authenticate
    rw [if_neg, if_neg]
    · unfold doFetch
      dsimp only
      cases hw : w.pending with
      | nil => simp [mkServiceNowAPI]
      | cons r rest =>
        dsimp only
        split <;> simp [mkServiceNowAPI]
    · simp [mkServiceNowAPI]
      exact ⟨hu, hp⟩
    · simp [mkServiceNowAPI, jsTruthy]
  refine ⟨by rw [hfirst.1], by rw [hfirst.1], hfirst.2, ?_⟩
  rw [hfirst.1]
  unfold authenticate
  rw [if_pos]
  constructor
  · simp [jsTruthy]
    exact btoa_userpass_ne_empty cred.username cred.password
  · simpa using ht

/-- C4 witness: the theorem applied to the concrete credential `credEx`, with
the first call at time 0, the second at time 1000000, on an empty trace. -/
theorem c4_witness :
    (authenticate (mkServiceNowAPI credEx) 0 (wireOf [authOkResp])).2.1.accessToken
        = some (btoa (credEx.username ++ ":" ++ credEx.password))
    ∧ (authenticate (mkServiceNowAPI credEx) 0 (wireOf [authOkResp])).2.1.tokenExpiry
        = 0 + 3600000
    ∧ (authenticate (mkServiceNowAPI credEx) 0 (wireOf [authOkResp])).2.2.sent.length
        = (wireOf [authOkResp]).sent.length + 1
    ∧ authenticate
        (authenticate (mkServiceNowAPI credEx) 0 (wireOf [authOkResp])).2.1 1000000
        (authenticate (mkServiceNowAPI credEx) 0 (wireOf [authOkResp])).2.2
      = (Except.ok (),
         (authenticate (mkServiceNowAPI credEx) 0 (wireOf [authOkResp])).2.1,
         (authenticate (mkServiceNowAPI credEx) 0 (wireOf [authOkResp])).2.2) :=
  c4_authenticate_twice_single_verification credEx 0 1000000 (wireOf [authOkResp])
    (by decide) (by decide) (by decide)

/-- C5, as amended.  For a client holding a valid cached token, executeScript
issues exactly one HTTP request: a POST to
`baseUrl ++ "api/now/v2/v1/script/execute"` (the code prefixes its endpoint
string "v1/script/execute" with the v2 base path, not the `api/now/v1` path
the spec names) whose body is `\x7bscript: s\x7d`, and on a 2xx response it
returns the `result` field of the response JSON unmodified. -/
theorem c5_execute_script_posts_to_v2_path
    (st : SNState) (tok : String) (now : Nat) (script bt : String) (j : Json)
    (resp : HttpResponse) (sent0 : List HttpRequest)
    (htok : st.accessToken = some tok) (hne : tok ≠ "")
    (hexp : now < st.tokenExpiry) (hok : resp.isOk = true)
    (hbody : resp.body = some bt) (hjson : resp.bodyJson = some j) :
    (executeScript st now script { pending := [resp], sent := sent0 }).1
      = Except.ok (j.getField "result")
    ∧ (executeScript st now script { pending := [resp], sent := sent0 }).2.2.sent
      = sent0 ++
        [{ method := "POST", url := st.baseUrl ++ "api/now/v2/v1/script/execute",
           body := some (Json.obj [("script", Json.str script)]),
           authHeader := some ("Basic " ++ tok), signal := none }] := by
  have hauth : authenticate st now { pending := [resp], sent := sent0 }
      = (Except.ok (), st, { pending := [resp], sent := sent0 }) := by
    unfold authenticate
    rw [if_pos]
    refine ⟨?_, hexp⟩
    rw [htok]
    simp [jsTruthy, hne]
  have hurl : requestUrl st "v1/script/execute"
      = st.baseUrl ++ "api/now/v2/v1/script/execute" := by
    unfold requestUrl
    rw [if_neg]
    · rw [String.append_assoc]
      congr 1
    · simp [jsStartsWith, listPrefixEq]
  unfold executeScript request
  dsimp only
  unfold requestGo
  rw [hauth]
  dsimp only [doFetch, snRequest]
  rw [hurl, htok]
  rw [hok]
  dsimp only [responseJson]
  rw [hbody, hjson]
  dsimp only [mapResult]
  exact ⟨rfl, rfl⟩

/-- C5 witness: the theorem applied to the concrete authenticated client and
the concrete successful script response. -/
theorem c5_execute_script_witness :
    (executeScript stAuthedEx 0 "gs.info(1)"
        { pending := [scriptOkResp], sent := [] }).1
      = Except.ok ((Json.obj [("result", Json.str "ok")]).getField "result")
    ∧ (executeScript stAuthedEx 0 "gs.info(1)"
        { pending := [scriptOkResp], sent := [] }).2.2.sent
      = [] ++
        [{ method := "POST",
           url := stAuthedEx.baseUrl ++ "api/now/v2/v1/script/execute",
           body := some (Json.obj [("script", Json.str "gs.info(1)")]),
           authHeader := some ("Basic " ++ btoa "admin:secret"), signal := none }] :=
  c5_execute_script_posts_to_v2_path stAuthedEx (btoa "admin:secret") 0 "gs.info(1)"
    "\x7b\"result\":\"ok\"\x7d" (Json.obj [("result", Json.str "ok")]) scriptOkResp []
    rfl (by decide) (by decide) (by decide) rfl rfl

/-- C6, as amended.  For every owner, title and message pair whose timestamps
are non-decreasing, the save/read round-trip on a fresh store returns the
conversation with both messages in their original order, preserving content,
sender, exact timestamp and code snippets; the message ids, however, are the
database-generated row ids (the insert payload carries no id), not the ids of
the supplied messages, and when the first message's timestamp exceeds the
second's the created_at-ascending read-back swaps the pair. -/
theorem c6_roundtrip_preserves_content
    (owner title : String) (m1 m2 : ChatMessage) (now : Nat)
    (h : m1.timestamp ≤ m2.timestamp) :
    (saveConversation owner title [m1, m2] now emptySupaWorld).1
      = Except.ok (some "row-0")
    ∧ (getConversationWithMessages "row-0"
        (saveConversation owner title [m1, m2] now emptySupaWorld).2).1
      = Except.ok (some
        { id := "row-0", title := title, createdAt := now, updatedAt := now,
          messages := some
            [{ id := "row-1", content := m1.content, sender := m1.sender,
               timestamp := m1.timestamp, codeSnippets := m1.codeSnippets },
             { id := "row-2", content := m2.content, sender := m2.sender,
               timestamp := m2.timestamp, codeSnippets := m2.codeSnippets }] }) := by
  refine ⟨rfl, ?_⟩
  show (getConversationWithMessages "row-0" _).1 = _
  dsimp only [saveConversation, popFault, emptySupaWorld, freshId, insertMessageRows]
  norm_num
  simp only [getConversationWithMessages, popFault, List.filter, List.nil_append]
  have h0 : ("row-" ++ toString 0 == "row-0") = true := by decide
  have h1 : "row-" ++ toString 1 = "row-1" := by decide
  have h2 : "row-" ++ toString 2 = "row-2" := by decide
  have h3 : "row-" ++ toString 0 = "row-0" := by decide
  simp only [h0, h1, h2, h3]
  dsimp only [sortByCreatedAt, List.foldl, insertByCreatedAt]
  rw [if_pos h]
  rfl

/-- C6 witness: the round-trip theorem applied to a concrete ascending
message pair. -/
theorem c6_roundtrip_witness :
    (saveConversation "user-1" "Greetings"
        [{ id := "a", content := "hi", sender := Sender.user, timestamp := 1000,
           codeSnippets := none },
         { id := "b", content := "yo", sender := Sender.ai, timestamp := 2000,
           codeSnippets := some [{ id := "s1", code := "gs.info(2)", language := "javascript" }] }]
        5000 emptySupaWorld).1
      = Except.ok (some "row-0")
    ∧ (getConversationWithMessages "row-0"
        (saveConversation "user-1" "Greetings"
          [{ id := "a", content := "hi", sender := Sender.user, timestamp := 1000,
             codeSnippets := none },
           { id := "b", content := "yo", sender := Sender.ai, timestamp := 2000,
             codeSnippets := some [{ id := "s1", code := "gs.info(2)", language := "javascript" }] }]
          5000 emptySupaWorld).2).1
      = Except.ok (some
        { id := "row-0", title := "Greetings", createdAt := 5000, updatedAt := 5000,
          messages := some
            [{ id := "row-1", content := "hi", sender := Sender.user,
               timestamp := 1000, codeSnippets := none },
             { id := "row-2", content := "yo", sender := Sender.ai,
               timestamp := 2000,
               codeSnippets := some [{ id := "s1", code := "gs.info(2)", language := "javascript" }] }] }) :=
  c6_roundtrip_preserves_content "user-1" "Greetings"
    { id := "a", content := "hi", sender := Sender.user, timestamp := 1000,
      codeSnippets := none }
    { id := "b", content := "yo", sender := Sender.ai, timestamp := 2000,
      codeSnippets := some [{ id := "s1", code := "gs.info(2)", language := "javascript" }] }
    5000 (by decide)

/-- C8.  updateServiceNowCredential applies only the columns present in the
update payload: every absent column — in particular the password, which the
settings UI omits whenever the entered password is empty — keeps its stored
value, columns present are set to the supplied value, the id, owner and
creation-time columns are never written, and rows not matching the
(id, owner) scope are untouched. -/
theorem c8_update_credential_frame
    (id owner : String) (u : CredUpdates) (r : CredRow)
    (cs : List ConversationRow) (ms : List MessageRow) (creds : List CredRow)
    (uid : Option String) (n : Nat)
    (hfind : creds.filter (fun c => c.id == id && c.user_id == owner) = [r]) :
    (updateServiceNowCredential id owner u ⟨cs, ms, creds, [], uid, n⟩).1
      = Except.ok (applyCredUpdates r u)
    ∧ (updateServiceNowCredential id owner u ⟨cs, ms, creds, [], uid, n⟩).2.credentials
      = creds.map (fun c =>
          if c.id == id && c.user_id == owner then applyCredUpdates c u else c)
    ∧ (u.password = none → (applyCredUpdates r u).password = r.password)
    ∧ (u.name = none → (applyCredUpdates r u).name = r.name)
    ∧ (u.instance_url = none → (applyCredUpdates r u).instance_url = r.instance_url)
    ∧ (u.username = none → (applyCredUpdates r u).username = r.username)
    ∧ (∀ v, u.password = some v → (applyCredUpdates r u).password = v)
    ∧ (∀ v, u.name = some v → (applyCredUpdates r u).name = v)
    ∧ (∀ v, u.instance_url = some v → (applyCredUpdates r u).instance_url = v)
    ∧ (∀ v, u.username = some v → (applyCredUpdates r u).username = v)
    ∧ (applyCredUpdates r u).id = r.id
    ∧ (applyCredUpdates r u).user_id = r.user_id
    ∧ (applyCredUpdates r u).created_at = r.created_at
    ∧ (∀ c ∈ creds, (c.id == id && c.user_id == owner) = false →
        c ∈ (updateServiceNowCredential id owner u ⟨cs, ms, creds, [], uid, n⟩).2.credentials)
    ∧ (∀ nm iu un : String, (handleUpdateCredentialUpdates nm iu un "").password = none) := by
  have hrun : updateServiceNowCredential id owner u ⟨cs, ms, creds, [], uid, n⟩
      = (Except.ok (applyCredUpdates r u),
         ⟨cs, ms, creds.map (fun c =>
            if c.id == id && c.user_id == owner then applyCredUpdates c u else c),
          [], uid, n⟩) := by
    dsimp only [updateServiceNowCredential, popFault]
    rw [hfind]
  refine ⟨by rw [hrun], by rw [hrun], ?_, ?_, ?_, ?_, ?_, ?_, ?_, ?_, ?_, ?_, ?_, ?_, ?_⟩
  · intro hp; simp [applyCredUpdates, hp]
  · intro hp; simp [applyCredUpdates, hp]
  · intro hp; simp [applyCredUpdates, hp]
  · intro hp; simp [applyCredUpdates, hp]
  · intro v hp; simp [applyCredUpdates, hp]
  · intro v hp; simp [applyCredUpdates, hp]
  · intro v hp; simp [applyCredUpdates, hp]
  · intro v hp; simp [applyCredUpdates, hp]
  · rfl
  · rfl
  · rfl
  · intro c hc hpred
    rw [hrun]
    exact List.mem_map.mpr ⟨c, hc, by simp [hpred]⟩
  · intro nm iu un; rfl

/-- C8 witness: the theorem applied to the concrete stored credential with
the UI-built update for an empty entered password; the stored password is
unchanged. -/
theorem c8_update_credential_witness :
    (updateServiceNowCredential "cred-1" "user-1"
        (handleUpdateCredentialUpdates "New name" "https://dev.service-now.com/" "admin" "")
        ⟨[], [], [credEx], [], none, 0⟩).1
      = Except.ok (applyCredUpdates credEx
          (handleUpdateCredentialUpdates "New name" "https://dev.service-now.com/" "admin" ""))
    ∧ (applyCredUpdates credEx
        (handleUpdateCredentialUpdates "New name" "https://dev.service-now.com/" "admin" "")).password
      = credEx.password :=
  have h := c8_update_credential_frame "cred-1" "user-1"
    (handleUpdateCredentialUpdates "New name" "https://dev.service-now.com/" "admin" "")
    credEx [] [] [credEx] none 0 (by decide)
  And.intro h.1 (h.2.2.1 rfl)

theorem doFetch_sent (req : HttpRequest) (w : Wire) :
    (doFetch req w).2.sent = w.sent ++ [req] := by
  unfold doFetch
  cases w.pending <;> rfl

theorem sentOnlyUnsigned_refl (w : Wire) : sentOnlyUnsigned w w :=
  fun _ hr => Or.inl hr

theorem sentOnlyUnsigned_trans {w1 w2 w3 : Wire}
    (h12 : sentOnlyUnsigned w1 w2) (h23 : sentOnlyUnsigned w2 w3) :
    sentOnlyUnsigned w1 w3 := by
  intro r hr
  rcases h23 r hr with h | h
  · exact h12 r h
  · exact Or.inr h

theorem sentOnlyUnsigned_fetch (req : HttpRequest) (hs : req.signal = none)
    (w : Wire) : sentOnlyUnsigned w (doFetch req w).2 := by
  intro r hr
  rw [doFetch_sent] at hr
  rcases List.mem_append.mp hr with h | h
  · exact Or.inl h
  · rw [List.mem_singleton.mp h]
    exact Or.inr hs

theorem authenticate_unsigned (st : SNState) (now : Nat) (w : Wire) :
    sentOnlyUnsigned w (authenticate st now w).2.2 := by
  unfold authenticate
  split
  · exact sentOnlyUnsigned_refl w
  · split
    · exact sentOnlyUnsigned_refl w
    · unfold doFetch
      dsimp only
      cases hw : w.pending with
      | nil =>
        intro r hr
        simp only [List.mem_append, List.mem_singleton] at hr
        rcases hr with h | h
        · exact Or.inl h
        · rw [h]; exact Or.inr rfl
      | cons resp rest =>
        dsimp only
        split <;>
          (intro r hr
           simp only [List.mem_append, List.mem_singleton] at hr
           rcases hr with h | h
           · exact Or.inl h
           · rw [h]; exact Or.inr rfl)

theorem requestGo_unsigned (fuel : Nat) : ∀ (st : SNState) (now : Nat)
    (endpoint : String) (opts : ReqOptions) (w : Wire),
    sentOnlyUnsigned w (requestGo fuel st now endpoint opts w).2.2 := by
  induction fuel with
  | zero => intro st now endpoint opts w; exact sentOnlyUnsigned_refl w
  | succ n ih =>
    intro st now endpoint opts w
    unfold requestGo
    rcases ha : authenticate st now w with ⟨res, st1, w1⟩
    have hw1 : sentOnlyUnsigned w w1 := by
      have h := authenticate_unsigned st now w
      rw [ha] at h
      exact h
    cases res with
    | error e => exact hw1
    | ok u =>
      dsimp only
      rcases hf : doFetch (snRequest st1 endpoint opts) w1 with ⟨fres, w2⟩
      have hw2 : sentOnlyUnsigned w w2 := by
        have h := sentOnlyUnsigned_fetch (snRequest st1 endpoint opts) rfl w1
        rw [hf] at h
        exact sentOnlyUnsigned_trans hw1 h
      cases fres with
      | error e =>
        dsimp only
        split
        · exact sentOnlyUnsigned_trans hw2 (ih _ _ _ _ _)
        · exact hw2
      | ok resp =>
        dsimp only
        split
        · split
          · exact hw2
          · exact hw2
        · split
          · exact sentOnlyUnsigned_trans hw2 (ih _ _ _ _ _)
          · exact hw2

/-- C9, counterexample.  The claim says every outbound HTTP call of the
system is bounded by a 15-second abort signal; the verification request
issued by the ServiceNow client's authenticate carries no abort signal at
all, while a request through the supabase client's global fetch wrapper does
carry the 15-second signal. -/
theorem c9_counterexample_servicenow_fetch_unbounded :
    c9AuthRun.2.2.sent.map (fun r => r.signal) = [none]
    ∧ (supabaseGlobalFetch "https://example.supabase.co/rest/v1/conversations"
        { method := some "GET", body := none, signal := none }).signal
      = some 15000 :=
  ⟨rfl, rfl⟩

/-- C9, as amended.  Only the requests issued through the supabase client's
global fetch wrapper carry the 15000-millisecond abort signal; every request
the ServiceNow API client adds to the trace — through authenticate or through
request, at any fuel — carries no abort signal and is not time-bounded. -/
theorem c9_timeout_only_on_supabase_calls :
    (∀ (url : String) (options : FetchOptions),
       (supabaseGlobalFetch url options).signal = some 15000)
    ∧ (∀ (st : SNState) (now : Nat) (w : Wire),
       sentOnlyUnsigned w (authenticate st now w).2.2)
    ∧ (∀ (st : SNState) (now : Nat) (endpoint : String) (opts : ReqOptions)
         (w : Wire),
       sentOnlyUnsigned w (request st now endpoint opts w).2.2) :=
  ⟨fun _ _ => rfl, authenticate_unsigned,
   fun st now endpoint opts w => requestGo_unsigned _ st now endpoint opts w⟩

/-- C9 witness: the amended theorem applied to the concrete run `c9AuthRun`
and the one request it put on the wire, which carries no abort signal. -/
theorem c9_timeout_witness :
    authReqEx ∈ (wireOf [authOkResp]).sent ∨ authReqEx.signal = none :=
  c9_timeout_only_on_supabase_calls.2.1 (mkServiceNowAPI credEx) 0
    (wireOf [authOkResp]) authReqEx (List.Mem.head _)

theorem corePreserved_refl (st : SNState) : corePreserved st st :=
  ⟨rfl, rfl, rfl, rfl⟩

theorem corePreserved_trans {a b c : SNState}
    (hab : corePreserved a b) (hbc : corePreserved b c) : corePreserved a c :=
  ⟨hbc.1.trans hab.1, hbc.2.1.trans hab.2.1, hbc.2.2.1.trans hab.2.2.1,
   hbc.2.2.2.trans hab.2.2.2⟩

theorem authenticate_core (st : SNState) (now : Nat) (w : Wire) :
    corePreserved st (authenticate st now w).2.1 := by
  unfold authenticate
  split
  · exact corePreserved_refl st
  · split
    · exact corePreserved_refl st
    · unfold doFetch
      dsimp only
      cases hw : w.pending with
      | nil => exact ⟨rfl, rfl, rfl, rfl⟩
      | cons resp rest =>
        dsimp only
        split
        · exact ⟨rfl, rfl, rfl, rfl⟩
        · exact ⟨rfl, rfl, rfl, rfl⟩

theorem requestGo_core (fuel : Nat) : ∀ (st : SNState) (now : Nat)
    (endpoint : String) (opts : ReqOptions) (w : Wire),
    corePreserved st (requestGo fuel st now endpoint opts w).2.1 := by
  induction fuel with
  | zero => intro st now endpoint opts w; exact corePreserved_refl st
  | succ n ih =>
    intro st now endpoint opts w
    unfold requestGo
    rcases ha : authenticate st now w with ⟨res, st1, w1⟩
    have hst1 : corePreserved st st1 := by
      have h := authenticate_core st now w
      rw [ha] at h
      exact h
    cases res with
    | error e => exact hst1
    | ok u =>
      dsimp only
      rcases hf : doFetch (snRequest st1 endpoint opts) w1 with ⟨fres, w2⟩
      have hclear : corePreserved st
          { st1 with accessToken := none, tokenExpiry := 0 } :=
        corePreserved_trans hst1 ⟨rfl, rfl, rfl, rfl⟩
      cases fres with
      | error e =>
        dsimp only
        split
        · exact corePreserved_trans hclear
            (corePreserved_trans (corePreserved_refl _) (ih _ _ _ _ _))
        · exact hst1
      | ok resp =>
        dsimp only
        split
        · split
          · exact hst1
          · exact hst1
        · split
          · exact corePreserved_trans hclear
              (corePreserved_trans (corePreserved_refl _) (ih _ _ _ _ _))
          · exact hst1

theorem request_core (st : SNState) (now : Nat) (endpoint : String)
    (opts : ReqOptions) (w : Wire) :
    corePreserved st (request st now endpoint opts w).2.1 :=
  requestGo_core (w.pending.length + 1) st now endpoint opts w

theorem mapResult_snd (f : Json → A) (wrap : JsError → JsError)
    (t : Except JsError Json × SNState × Wire) :
    (mapResult f wrap t).2 = t.2 := by
  rcases t with ⟨res, st, w⟩
  cases res <;> rfl

theorem queryRecords_core (st : SNState) (now : Nat) (o : SNQueryOptions)
    (w : Wire) : corePreserved st (queryRecords st now o w).2.1 := by
  unfold queryRecords
  dsimp only
  rw [mapResult_snd]
  exact request_core _ _ _ _ _

theorem getRecord_core (st : SNState) (now : Nat) (table sysId : String)
    (fields : List String) (w : Wire) :
    corePreserved st (getRecord st now table sysId fields w).2.1 := by
  unfold getRecord
  dsimp only
  rw [mapResult_snd]
  exact request_core _ _ _ _ _

theorem createRecord_core (st : SNState) (now : Nat) (table : String)
    (data : Json) (w : Wire) :
    corePreserved st (createRecord st now table data w).2.1 := by
  unfold createRecord
  rw [mapResult_snd]
  exact request_core _ _ _ _ _

theorem updateRecord_core (st : SNState) (now : Nat) (table sysId : String)
    (data : Json) (w : Wire) :
    corePreserved st (updateRecord st now table sysId data w).2.1 := by
  unfold updateRecord
  rw [mapResult_snd]
  exact request_core _ _ _ _ _

theorem deleteRecord_core (st : SNState) (now : Nat) (table sysId : String)
    (w : Wire) : corePreserved st (deleteRecord st now table sysId w).2.1 := by
  unfold deleteRecord
  rw [mapResult_snd]
  exact request_core _ _ _ _ _

theorem executeScript_core (st : SNState) (now : Nat) (script : String)
    (w : Wire) : corePreserved st (executeScript st now script w).2.1 := by
  unfold executeScript
  rw [mapResult_snd]
  exact request_core _ _ _ _ _

theorem testConnection_core (st : SNState) (now : Nat) (w : Wire) :
    corePreserved st (testConnection st now w).2.1 := by
  unfold testConnection
  rcases ha : authenticate st now w with ⟨res, st1, w1⟩
  have hst1 : corePreserved st st1 := by
    have h := authenticate_core st now w
    rw [ha] at h
    exact h
  cases res with
  | error e => exact hst1
  | ok u =>
    dsimp only
    rcases hr : request st1 now "table/sys_user?sysparm_limit=1"
        { method := none, body := none } w1 with ⟨rres, st2, w2⟩
    have hst2 : corePreserved st1 st2 := by
      have h := request_core st1 now "table/sys_user?sysparm_limit=1"
        { method := none, body := none } w1
      rw [hr] at h
      exact h
    cases rres with
    | error e => exact corePreserved_trans hst1 hst2
    | ok j => exact corePreserved_trans hst1 hst2

/-- C10.  The constructor normalizes the base URL (copying the instance URL
verbatim when it already ends with a slash, appending one otherwise) and
initializes the token state empty; every operation of the client — the
authentication step, the shared request dispatch, and all seven public
operations — leaves the connection and identity fields (baseUrl, username,
password, credentialId) unchanged, mutating at most accessToken and
tokenExpiry; and every relative endpoint is dispatched to
`baseUrl ++ "api/now/v2/" ++ endpoint`. -/
theorem c10_client_invariants :
    (∀ cred : CredRow,
        (jsEndsWith cred.instance_url "/" = true →
          (mkServiceNowAPI cred).baseUrl = cred.instance_url)
      ∧ (jsEndsWith cred.instance_url "/" = false →
          (mkServiceNowAPI cred).baseUrl = cred.instance_url ++ "/")
      ∧ (mkServiceNowAPI cred).username = cred.username
      ∧ (mkServiceNowAPI cred).password = cred.password
      ∧ (mkServiceNowAPI cred).credentialId = cred.id
      ∧ (mkServiceNowAPI cred).accessToken = none
      ∧ (mkServiceNowAPI cred).tokenExpiry = 0)
    ∧ (∀ (st : SNState) (now : Nat) (w : Wire),
        corePreserved st (authenticate st now w).2.1)
    ∧ (∀ (st : SNState) (now : Nat) (endpoint : String) (opts : ReqOptions)
         (w : Wire), corePreserved st (request st now endpoint opts w).2.1)
    ∧ (∀ (st : SNState) (now : Nat) (o : SNQueryOptions) (w : Wire),
        corePreserved st (queryRecords st now o w).2.1)
    ∧ (∀ (st : SNState) (now : Nat) (table sysId : String)
         (fields : List String) (w : Wire),
        corePreserved st (getRecord st now table sysId fields w).2.1)
    ∧ (∀ (st : SNState) (now : Nat) (table : String) (data : Json) (w : Wire),
        corePreserved st (createRecord st now table data w).2.1)
    ∧ (∀ (st : SNState) (now : Nat) (table sysId : String) (data : Json)
         (w : Wire), corePreserved st (updateRecord st now table sysId data w).2.1)
    ∧ (∀ (st : SNState) (now : Nat) (table sysId : String) (w : Wire),
        corePreserved st (deleteRecord st now table sysId w).2.1)
    ∧ (∀ (st : SNState) (now : Nat) (script : String) (w : Wire),
        corePreserved st (executeScript st now script w).2.1)
    ∧ (∀ (st : SNState) (now : Nat) (w : Wire),
        corePreserved st (testConnection st now w).2.1)
    ∧ (∀ (st : SNState) (endpoint : String),
        jsStartsWith endpoint "http" = false →
        requestUrl st endpoint = st.baseUrl ++ "api/now/v2/" ++ endpoint)
    ∧ (∀ (st : SNState) (endpoint : String) (opts : ReqOptions),
        (snRequest st endpoint opts).url = requestUrl st endpoint) := by
  refine ⟨?_, authenticate_core, request_core, queryRecords_core, getRecord_core,
    createRecord_core, updateRecord_core, deleteRecord_core, executeScript_core,
    testConnection_core, ?_, fun _ _ _ => rfl⟩
  · intro cred
    refine ⟨?_, ?_, rfl, rfl, rfl, rfl, rfl⟩
    · intro h
      simp [mkServiceNowAPI, h]
    · intro h
      simp [mkServiceNowAPI, h]
  · intro st endpoint h
    simp [requestUrl, h]

/-- C10 witness: the invariants applied to the concrete credential (whose
instance URL lacks the trailing slash) and the concrete relative endpoint
"table/incident". -/
theorem c10_client_invariants_witness :
    (mkServiceNowAPI credEx).baseUrl = credEx.instance_url ++ "/"
    ∧ requestUrl stAuthedEx "table/incident"
      = stAuthedEx.baseUrl ++ "api/now/v2/" ++ "table/incident" :=
  And.intro ((c10_client_invariants.1 credEx).2.1 (by decide))
    (c10_client_invariants.2.2.2.2.2.2.2.2.2.2.1 stAuthedEx "table/incident" (by decide))

end AgentX
